import Mathlib

/-!
Shallow embedding of src/plugin/importer_launcher.py.

The script resolves the directory of its own source file, joins the fixed
subpath bin/UltralibrarianImporter.exe, checks existence with
os.path.exists, and either prints a diagnostic and exits with status 1, or
spawns the executable with env=os.environ, waits, and exits with the child
status.  The module calls launch_importer() at top level.

Python library path functions (posixpath.dirname, posixpath.join,
posixpath.normpath, posixpath.abspath) are embedded over character lists,
following the CPython implementations.
-/

namespace ImporterLauncher

/-- Split a character list on the path separator, mirroring
str.split of Python applied with separator "/". -/
def splitSep : List Char → List (List Char)
  | [] => [[]]
  | c :: rest =>
    let r := splitSep rest
    if c = '/' then [] :: r
    else
      match r with
      | [] => [[c]]
      | h :: t => (c :: h) :: t

/-- Join components with the path separator, mirroring the Python
expression that joins a list of strings with "/". -/
def joinSep : List (List Char) → List Char
  | [] => []
  | [p] => p
  | p :: ps => p ++ '/' :: joinSep ps

/-- posixpath.normpath of CPython: collapse empty and "." components,
resolve ".." where possible, keep the initial slashes. -/
def normpath (p : String) : String :=
  let cs := p.toList
  if cs = [] then "."
  else
    let initialSlashes : Nat :=
      if cs.take 1 = ['/'] then
        if cs.take 2 = ['/', '/'] ∧ cs.take 3 ≠ ['/', '/', '/'] then 2 else 1
      else 0
    let comps := splitSep cs
    let newComps := comps.foldl
      (fun acc comp =>
        if comp = [] ∨ comp = ['.'] then acc
        else if comp ≠ ['.', '.'] ∨ (initialSlashes = 0 ∧ acc = []) ∨
                (acc.getLast? = some ['.', '.']) then acc ++ [comp]
        else if acc ≠ [] then acc.dropLast
        else acc) []
    let full := List.replicate initialSlashes '/' ++ joinSep newComps
    if full = [] then "." else String.mk full

/-- posixpath.dirname of CPython: the part of the path up to the last
separator, with trailing separators stripped unless the result is all
separators. -/
def dirname (p : String) : String :=
  let cs := p.toList
  let head := (cs.reverse.dropWhile (fun c => c ≠ '/')).reverse
  let head :=
    if head ≠ [] ∧ ¬ head.all (fun c => c = '/') then
      (head.reverse.dropWhile (fun c => c = '/')).reverse
    else head
  String.mk head

/-- Whether a path is absolute: posixpath.isabs. -/
def isAbs (p : String) : Bool := p.toList.take 1 = ['/']

/-- Whether a path ends with the separator. -/
def endsWithSep (p : String) : Bool := p.toList.getLast? = some '/'

/-- posixpath.join of CPython restricted to two arguments: the second
path replaces the first when absolute, otherwise it is appended with a
separator inserted when needed. -/
def joinPath (a b : String) : String :=
  if isAbs b then b
  else if a = "" ∨ endsWithSep a then a ++ b
  else a ++ "/" ++ b

/-- posixpath.abspath of CPython: join with the current working
directory when the path is relative, then normalize. -/
def abspath (cwd p : String) : String :=
  normpath (if isAbs p then p else joinPath cwd p)

/-- What occupies a filesystem path: a regular file, a directory, or
some other entry.  os.path.exists is true for any of them. -/
inductive FSEntry
  | file
  | dir
  | other
deriving DecidableEq, Repr

/-- The operating environment of one invocation of the script:
the __file__ attribute of the module, the current working directory,
the argument vector, the environment variables (os.environ as an
association list), the filesystem contents, and the exit status the
child process would report when spawned at a given path with a given
environment. -/
structure World where
  file : String
  cwd : String
  argv : List String
  env : List (String × String)
  fs : String → Option FSEntry
  childExit : String → List (String × String) → Int

/-- os.path.exists: true when anything occupies the path. -/
def pathExists (fs : String → Option FSEntry) (p : String) : Bool :=
  (fs p).isSome

/-- Observable process state accumulated by the script: the current
os.environ mapping, the lines written to standard output and standard
error, the spawn events (path and environment of each Popen call), the
number of blocking waits performed, and the number of writes made to
the os.environ mapping. -/
structure ProcState where
  env : List (String × String)
  stdoutLines : List String
  stderrLines : List String
  spawns : List (String × List (String × String))
  waits : Nat
  envWrites : Nat
deriving DecidableEq, Repr

/-- The state at interpreter start, before the module body runs. -/
def initState (w : World) : ProcState :=
  { env := w.env
    stdoutLines := []
    stderrLines := []
    spawns := []
    waits := 0
    envWrites := 0 }

/-- print(...): append one line to standard output. -/
def printLine (line : String) (s : ProcState) : ProcState :=
  { s with stdoutLines := s.stdoutLines ++ [line] }

/-- A handle to a spawned child process, remembering the path and the
environment it was given. -/
structure ChildProcess where
  path : String
  env : List (String × String)
deriving DecidableEq, Repr

/-- subprocess.Popen(path, env=e): record the spawn and return the
handle. -/
def popen (path : String) (e : List (String × String)) (s : ProcState) :
    ChildProcess × ProcState :=
  (⟨path, e⟩, { s with spawns := s.spawns ++ [(path, e)] })

/-- process.wait(): block until the child exits and return its status;
the status is given by the world as a function of the spawn parameters. -/
def wait (w : World) (p : ChildProcess) (s : ProcState) : Int × ProcState :=
  (w.childExit p.path p.env, { s with waits := s.waits + 1 })

/-- sys.exit(c): terminate the process with status c.  Termination is
the error branch of Except, so statements after it never run. -/
def sysExit (c : Int) (s : ProcState) : Except (Int × ProcState) ProcState :=
  Except.error (c, s)

/-- dict.__setitem__ on an association list: replace the value under an
existing key, otherwise append the pair. -/
def setItem (e : List (String × String)) (k v : String) :
    List (String × String) :=
  if e.any (fun p => p.1 = k) then
    e.map (fun p => if p.1 = k then (k, v) else p)
  else e ++ [(k, v)]

/-- dict.update(other): set every key of other in the mapping. -/
def updateEnv (e upds : List (String × String)) : List (String × String) :=
  upds.foldl (fun acc p => setItem acc p.1 p.2) e

/-- os.environ.update(os.environ): update the environment mapping with
itself, counting the write. -/
def envUpdateSelf (s : ProcState) : ProcState :=
  { s with env := updateEnv s.env s.env, envWrites := s.envWrites + 1 }

/-- The resolved executable path computed by the script from the
current working directory and the module __file__ attribute. -/
def exePathOf (cwd file : String) : String :=
  joinPath (joinPath (dirname (abspath cwd file)) "bin")
    "UltralibrarianImporter.exe"

/-- launch_importer() of src/plugin/importer_launcher.py, line by line:
resolve script_dir and exe_path, test os.path.exists, and either print
the diagnostic and sys.exit(1), or Popen with env=os.environ, wait, and
sys.exit(return_code); the trailing os.environ.update(os.environ)
statement of the source follows the exit. -/
def launch_importer (w : World) (s : ProcState) :
    Except (Int × ProcState) ProcState :=
  let script_dir := dirname (abspath w.cwd w.file)
  let exe_path := joinPath (joinPath script_dir "bin")
    "UltralibrarianImporter.exe"
  if ! pathExists w.fs exe_path then
    let s := printLine ("Error: Executable not found at " ++ exe_path) s
    sysExit 1 s
  else
    let ps := popen exe_path s.env s
    let process := ps.1
    let s := ps.2
    let rs := wait w process s
    let return_code := rs.1
    let s := rs.2
    Except.bind (sysExit return_code s)
      (fun s => Except.ok (envUpdateSelf s))

/-- The launcher with the statement os.environ.update(os.environ)
removed, as the design notes of the spec describe the intended cleanup;
identical to launch_importer otherwise. -/
def launch_importer_noUpdate (w : World) (s : ProcState) :
    Except (Int × ProcState) ProcState :=
  let script_dir := dirname (abspath w.cwd w.file)
  let exe_path := joinPath (joinPath script_dir "bin")
    "UltralibrarianImporter.exe"
  if ! pathExists w.fs exe_path then
    let s := printLine ("Error: Executable not found at " ++ exe_path) s
    sysExit 1 s
  else
    let ps := popen exe_path s.env s
    let process := ps.1
    let s := ps.2
    let rs := wait w process s
    let return_code := rs.1
    let s := rs.2
    sysExit return_code s

/-- True when the script terminated the process rather than returning
control to its caller. -/
def exitsProcess : Except (Int × ProcState) ProcState → Bool
  | Except.error _ => true
  | Except.ok _ => false

/-- Importing the module runs launch_importer() at top level (line 28
of the source, outside any main guard).  If the call terminated the
process, the pair is its status and final state; if it returned, the
interpreter would finish the module and exit with status 0. -/
def module_main (w : World) : Int × ProcState :=
  match launch_importer w (initState w) with
  | Except.error r => r
  | Except.ok s => (0, s)

/-- The final state the script reaches when nothing exists at the
resolved path: one diagnostic line, no spawn, no wait. -/
def missingState (w : World) : ProcState :=
  { env := w.env
    stdoutLines :=
      ["Error: Executable not found at " ++ exePathOf w.cwd w.file]
    stderrLines := []
    spawns := []
    waits := 0
    envWrites := 0 }

/-- The final state the script reaches when something exists at the
resolved path: one spawn with the inherited environment, one wait, no
output of its own. -/
def spawnedState (w : World) : ProcState :=
  { env := w.env
    stdoutLines := []
    stderrLines := []
    spawns := [(exePathOf w.cwd w.file, w.env)]
    waits := 1
    envWrites := 0 }

/-- A concrete invocation with the executable present as a regular file
and a child that exits with status 42. -/
def wHappy : World :=
  { file := "/plugins/ultra/importer_launcher.py"
    cwd := "/work"
    argv := []
    env := [("PATH", "/usr/bin"), ("MY_VAR", "1")]
    fs := fun p =>
      if p = "/plugins/ultra/bin/UltralibrarianImporter.exe" then
        some FSEntry.file
      else none
    childExit := fun _ _ => 42 }

/-- A concrete invocation with an empty filesystem: nothing exists at
the resolved path. -/
def wMissing : World :=
  { file := "/plugins/ultra/importer_launcher.py"
    cwd := "/work"
    argv := []
    env := []
    fs := fun _ => none
    childExit := fun _ _ => 0 }

/-- A concrete invocation with a directory, not a regular file, at the
resolved executable path; the child exit status is 0. -/
def wDirAtPath : World :=
  { file := "/plugins/ultra/importer_launcher.py"
    cwd := "/work"
    argv := []
    env := []
    fs := fun p =>
      if p = "/plugins/ultra/bin/UltralibrarianImporter.exe" then
        some FSEntry.dir
      else none
    childExit := fun _ _ => 0 }

theorem run_missing (w : World)
    (h : pathExists w.fs (exePathOf w.cwd w.file) = false) :
    launch_importer w (initState w) = Except.error (1, missingState w) := by
  simp [launch_importer, exePathOf] at *
  simp [h, printLine, sysExit, initState, missingState, exePathOf]

theorem run_spawn (w : World)
    (h : pathExists w.fs (exePathOf w.cwd w.file) = true) :
    launch_importer w (initState w)
      = Except.error
          (w.childExit (exePathOf w.cwd w.file) w.env, spawnedState w) := by
  simp [launch_importer, exePathOf] at *
  simp [h, popen, wait, sysExit, Except.bind, initState, spawnedState,
    exePathOf]

theorem module_main_missing (w : World)
    (h : pathExists w.fs (exePathOf w.cwd w.file) = false) :
    module_main w = (1, missingState w) := by
  simp [module_main, run_missing w h]

theorem module_main_spawn (w : World)
    (h : pathExists w.fs (exePathOf w.cwd w.file) = true) :
    module_main w
      = (w.childExit (exePathOf w.cwd w.file) w.env, spawnedState w) := by
  simp [module_main, run_spawn w h]

/-- Claim C1: when the executable exists at the resolved path and the
child process terminates with exit code n, the launcher terminates its
own process with exit status exactly n. -/
theorem exit_code_passthrough (w : World) (n : Int)
    (hf : w.fs (exePathOf w.cwd w.file) = some FSEntry.file)
    (hn : w.childExit (exePathOf w.cwd w.file) w.env = n) :
    (module_main w).1 = n := by
  have h : pathExists w.fs (exePathOf w.cwd w.file) = true := by
    simp [pathExists, hf]
  rw [module_main_spawn w h]
  exact hn

/-- Witness for C1: in the concrete world wHappy the executable is a
regular file at the resolved path, the child exits 42, and the launcher
exits 42. -/
theorem exit_code_passthrough_witness :
    wHappy.fs (exePathOf wHappy.cwd wHappy.file) = some FSEntry.file
    ∧ wHappy.childExit (exePathOf wHappy.cwd wHappy.file) wHappy.env = 42
    ∧ (module_main wHappy).1 = 42 :=
  ⟨by decide, by decide,
    exit_code_passthrough wHappy 42 (by decide) (by decide)⟩

/-- Claim C2: when nothing exists at the resolved path, the launcher
spawns no process, prints exactly one diagnostic line that contains the
resolved path, and terminates with exit status 1. -/
theorem missing_exec_diag_exit1 (w : World)
    (h : pathExists w.fs (exePathOf w.cwd w.file) = false) :
    (module_main w).2.spawns = []
    ∧ (module_main w).2.stdoutLines.length = 1
    ∧ (∃ pre : String,
        (module_main w).2.stdoutLines = [pre ++ exePathOf w.cwd w.file])
    ∧ (module_main w).1 = 1 := by
  rw [module_main_missing w h]
  exact ⟨rfl, rfl, ⟨"Error: Executable not found at ", rfl⟩, rfl⟩

/-- Witness for C2: in the concrete world wMissing nothing exists at
the resolved path and the conclusion of the claim holds there. -/
theorem missing_exec_diag_exit1_witness :
    pathExists wMissing.fs (exePathOf wMissing.cwd wMissing.file) = false
    ∧ ((module_main wMissing).2.spawns = []
       ∧ (module_main wMissing).2.stdoutLines.length = 1
       ∧ (∃ pre : String,
           (module_main wMissing).2.stdoutLines
             = [pre ++ exePathOf wMissing.cwd wMissing.file])
       ∧ (module_main wMissing).1 = 1) :=
  ⟨by decide, missing_exec_diag_exit1 wMissing (by decide)⟩

/-- Counterexample to C3 as stated: in wDirAtPath the resolved path is
a directory, not a regular file, yet the launcher prints no diagnostic,
spawns the path anyway, and exits with the child status 0 rather
than 1. -/
theorem dir_at_path_counterexample :
    wDirAtPath.fs (exePathOf wDirAtPath.cwd wDirAtPath.file)
      = some FSEntry.dir
    ∧ (module_main wDirAtPath).2.spawns.length = 1
    ∧ (module_main wDirAtPath).2.stdoutLines = []
    ∧ (module_main wDirAtPath).1 = 0 := by
  decide

/-- Claim C3 amended: the launcher takes the error path exactly when
nothing exists at the resolved path (os.path.exists is false); in that
case it prints one diagnostic and exits 1 without spawning, and this is
the only error condition it handles — when anything exists there, even
a directory, it proceeds to spawn without any diagnostic. -/
theorem exists_check_only_error (w : World) :
    if pathExists w.fs (exePathOf w.cwd w.file) = true then
      (module_main w).2.stdoutLines = []
      ∧ (module_main w).2.spawns.length = 1
    else
      (module_main w).2.stdoutLines.length = 1
      ∧ (module_main w).1 = 1
      ∧ (module_main w).2.spawns = [] := by
  by_cases h : pathExists w.fs (exePathOf w.cwd w.file) = true
  · rw [if_pos h, module_main_spawn w h]
    exact ⟨rfl, rfl⟩
  · have h' : pathExists w.fs (exePathOf w.cwd w.file) = false := by
      simpa using h
    rw [if_neg h, module_main_missing w h']
    exact ⟨rfl, rfl, rfl⟩

/-- Claim C4: when the module __file__ attribute is an absolute path
(as CPython guarantees), the resolved executable path is the normalized
script directory joined with bin/UltralibrarianImporter.exe, and it
does not depend on the current working directory. -/
theorem resolved_path_cwd_independent (w : World)
    (h : isAbs w.file = true) :
    exePathOf w.cwd w.file
      = joinPath (joinPath (dirname (normpath w.file)) "bin")
          "UltralibrarianImporter.exe"
    ∧ ∀ c : String, exePathOf c w.file = exePathOf w.cwd w.file := by
  have habs : ∀ c : String, abspath c w.file = normpath w.file := by
    intro c
    simp [abspath, h]
  exact ⟨by simp [exePathOf, habs], fun c => by simp [exePathOf, habs]⟩

/-- Witness for C4: the wHappy world has an absolute __file__ and two
different working directories resolve the same executable path. -/
theorem resolved_path_cwd_independent_witness :
    isAbs wHappy.file = true
    ∧ exePathOf "/cwdA" wHappy.file = exePathOf "/cwdB" wHappy.file :=
  ⟨by decide,
    (resolved_path_cwd_independent { wHappy with cwd := "/cwdB" }
      (by decide)).2 "/cwdA"⟩

/-- Claim C5: whenever a child is spawned, the environment passed to it
is exactly the os.environ mapping of the launcher at launch time — the
single spawn event records the resolved path with the unmodified parent
environment. -/
theorem env_passthrough (w : World)
    (h : pathExists w.fs (exePathOf w.cwd w.file) = true) :
    (module_main w).2.spawns = [(exePathOf w.cwd w.file, w.env)] := by
  rw [module_main_spawn w h]
  rfl

/-- Witness for C5: in wHappy the single spawn carries the parent
environment, including the custom variable MY_VAR. -/
theorem env_passthrough_witness :
    pathExists wHappy.fs (exePathOf wHappy.cwd wHappy.file) = true
    ∧ (module_main wHappy).2.spawns
        = [(exePathOf wHappy.cwd wHappy.file, wHappy.env)] :=
  ⟨by decide, env_passthrough wHappy (by decide)⟩

/-- Claim C6: the trailing os.environ.update(os.environ) statement is
dead code — the launcher equals the variant with the statement removed
on every world and state, and the environment mapping is never written
in any run. -/
theorem dead_env_update_equiv (w : World) (s : ProcState) :
    launch_importer w s = launch_importer_noUpdate w s
    ∧ (module_main w).2.envWrites = 0 := by
  constructor
  · rfl
  · by_cases h : pathExists w.fs (exePathOf w.cwd w.file) = true
    · rw [module_main_spawn w h]
      rfl
    · have h' : pathExists w.fs (exePathOf w.cwd w.file) = false := by
        simpa using h
      rw [module_main_missing w h']
      rfl

/-- Claim C7: the launcher never reads its argument vector, so two
invocations differing only in argv produce identical exit status and
identical observable state. -/
theorem argv_independent (w : World) (a b : List String) :
    module_main { w with argv := a } = module_main { w with argv := b } :=
  rfl

/-- Claim C8: every run spawns at most one process, waits at most once,
and prints at most one line; the run is the linear sequence resolve,
check, then either fail terminally (one line, no spawn, no wait) or
launch, wait once, and propagate. -/
theorem linear_control_flow (w : World) :
    (module_main w).2.spawns.length ≤ 1
    ∧ (module_main w).2.waits ≤ 1
    ∧ (module_main w).2.stdoutLines.length ≤ 1
    ∧ (if pathExists w.fs (exePathOf w.cwd w.file) = true then
        (module_main w).2.spawns.length = 1
        ∧ (module_main w).2.waits = 1
        ∧ (module_main w).2.stdoutLines = []
      else
        (module_main w).2.spawns = []
        ∧ (module_main w).2.waits = 0
        ∧ (module_main w).2.stdoutLines.length = 1) := by
  by_cases h : pathExists w.fs (exePathOf w.cwd w.file) = true
  · rw [module_main_spawn w h]
    refine ⟨by simp [spawnedState], by simp [spawnedState],
      by simp [spawnedState], ?_⟩
    rw [if_pos h]
    exact ⟨rfl, rfl, rfl⟩
  · have h' : pathExists w.fs (exePathOf w.cwd w.file) = false := by
      simpa using h
    rw [module_main_missing w h']
    refine ⟨by simp [missingState], by simp [missingState],
      by simp [missingState], ?_⟩
    rw [if_neg h]
    exact ⟨rfl, rfl, rfl⟩

/-- Claim C9: merely running the module body (which calls
launch_importer unconditionally, with no main guard) always terminates
the process instead of returning control, with status 1 on the missing
path or the child status after a spawn. -/
theorem module_always_exits (w : World) :
    exitsProcess (launch_importer w (initState w)) = true
    ∧ ((module_main w).1 = 1
       ∨ (module_main w).1
           = w.childExit (exePathOf w.cwd w.file) w.env) := by
  by_cases h : pathExists w.fs (exePathOf w.cwd w.file) = true
  · rw [run_spawn w h, module_main_spawn w h]
    exact ⟨rfl, Or.inr rfl⟩
  · have h' : pathExists w.fs (exePathOf w.cwd w.file) = false := by
      simpa using h
    rw [run_missing w h', module_main_missing w h']
    exact ⟨rfl, Or.inl rfl⟩

/-- Claim C10: on the missing-executable path the diagnostic goes to
standard output, nothing goes to standard error, and the single line is
exactly the fixed prefix followed by the resolved path. -/
theorem diagnostic_exact_stdout (w : World)
    (h : pathExists w.fs (exePathOf w.cwd w.file) = false) :
    (module_main w).2.stdoutLines
      = ["Error: Executable not found at " ++ exePathOf w.cwd w.file]
    ∧ (module_main w).2.stderrLines = [] := by
  rw [module_main_missing w h]
  exact ⟨rfl, rfl⟩

/-- Witness for C10: in wMissing the diagnostic line is exactly the
fixed prefix followed by the resolved path, on standard output only. -/
theorem diagnostic_exact_stdout_witness :
    pathExists wMissing.fs (exePathOf wMissing.cwd wMissing.file) = false
    ∧ ((module_main wMissing).2.stdoutLines
        = ["Error: Executable not found at "
            ++ exePathOf wMissing.cwd wMissing.file]
       ∧ (module_main wMissing).2.stderrLines = []) :=
  ⟨by decide, diagnostic_exact_stdout wMissing (by decide)⟩

end ImporterLauncher
